import Mathlib

/-!
# Verification of the `xtopala/p2pchat` orchestration layer

A shallow embedding, in Lean 4, of the pure computational content of the
`p2pchat` terminal chat client (Go).  The embedded functions follow the Go
source file by file:

* `src/chat.go`   — the ChatRoom session: `JoinChatRoom`, the publisher and
  subscriber-reader message handling, `UpdateUser`, default fallbacks.
* `src/ui.go`     — the input-line submission logic (`SetDoneFunc` closure in
  `NewUI`) and the `/room` branch of `handleCommand`.
* `src/p2p.go` / the discovery source — `bootstrapDHT` success tallying and
  `generateCID` (SHA-256 → multihash header → Base58 → multihash re-parse →
  CIDv1).

Effectful calls into the external libp2p substrate (topic join/subscribe,
`Connect`, `Publish`) are modelled by explicit parameters carrying their
results; channel sends are modelled as values in the returned effect records.
Go machine integers are modelled as `Nat` with explicit `% 2 ^ 32` wrapping
where overflow matters (SHA-256); Go byte slices are `List Nat` of values
below 256; Go strings are `String` (or `List Char` where the code indexes
into split results).
-/

set_option maxHeartbeats 1000000
set_option maxRecDepth 100000

namespace P2PChat

/-! ## Data model (`src/chat.go`) -/

/-- Default fallback user name (`src/chat.go`, `defaultUsername`). -/
def defaultUsername : String := "anon"

/-- Default fallback chat room name (`src/chat.go`, `defaultRoomName`). -/
def defaultRoomName : String := "lobby"

/-- The `chatMessage` struct of `src/chat.go`, with JSON tags
`message`, `senderId`, `senderName`. -/
structure chatMessage where
  Message    : String
  SenderID   : String
  SenderName : String
deriving DecidableEq, Repr

/-- The `chatLog` struct of `src/chat.go`.  The first field, the log
category tag, is named `logPrefix` in the source and `logCat` here. -/
structure chatLog where
  logCat : String
  logMsg : String
deriving DecidableEq, Repr

/-! ## Wire format

The publisher serializes a `chatMessage` with `json.Marshal`; the
subscriber-reader parses with `json.Unmarshal`.  The byte-level JSON grammar
belongs to Go's standard library (an external collaborator); what the
repository controls is the object shape: a single JSON object whose fields
are the three tagged strings.  We therefore model a wire payload at the
JSON-value level: either an object mapping string keys to string values, or
a malformed payload (anything `json.Unmarshal` rejects). -/

/-- A wire payload as seen by `json.Unmarshal`: a JSON object with string
fields, or malformed bytes. -/
inductive WireData where
  | obj (fields : List (String × String))
  | malformed
deriving DecidableEq, Repr

/-- The `json.Marshal` serialization of a `chatMessage` (publisher task, `src/chat.go` line 122):
one object with the three tagged fields, in struct order. -/
def marshalChatMessage (m : chatMessage) : WireData :=
  .obj [("message", m.Message), ("senderId", m.SenderID), ("senderName", m.SenderName)]

/-- Field lookup as `json.Unmarshal` performs it on a string field: the
matching key's value, or the zero value `""` when the key is absent
(unknown keys are ignored). -/
def jsonStringField (fields : List (String × String)) (key : String) : String :=
  match fields.find? (fun kv => kv.1 == key) with
  | some kv => kv.2
  | none    => ""

/-- The `json.Unmarshal` parse of a wire payload into a fresh `chatMessage`
(subscriber-reader, `src/chat.go` line 171): `none` models a non-nil error. -/
def unmarshalChatMessage : WireData → Option chatMessage
  | .obj fields =>
      some { Message    := jsonStringField fields "message"
           , SenderID   := jsonStringField fields "senderId"
           , SenderName := jsonStringField fields "senderName" }
  | .malformed => none

/-! ## The subscriber-reader step (`ReadSub`, `src/chat.go` lines 146–184)

One iteration of `ReadSub` on a successfully pulled pubsub message.  A pubsub
message carries the envelope peer ID `ReceivedFrom` (set by the pubsub
substrate) and the payload bytes `Data`. -/

/-- A message delivered by `subscription.Next`: the pubsub envelope. -/
structure PubSubMsg where
  ReceivedFrom : String
  Data         : WireData
deriving DecidableEq, Repr

/-- What one `ReadSub` iteration does with a pulled message. -/
inductive ReadSubAction where
  /-- Loop `continue` without output: the self-check `msg.ReceivedFrom == cr.selfID`
  fired. -/
  | skipSelf
  /-- a `suberr` log entry on the `Logs` channel: `json.Unmarshal` failed. -/
  | logUnmarshalErr
  /-- the decoded message is sent on the `Incomming` channel. -/
  | deliver (m : chatMessage)
deriving DecidableEq, Repr

/-- One iteration of the `ReadSub` loop body on a pulled message, for local
peer ID `selfID` (`src/chat.go` lines 165–181): first the self check on the
envelope's `ReceivedFrom`, then JSON decoding, then the `Incomming` send. -/
def readSubStep (selfID : String) (msg : PubSubMsg) : ReadSubAction :=
  if msg.ReceivedFrom == selfID then
    .skipSelf
  else
    match unmarshalChatMessage msg.Data with
    | none    => .logUnmarshalErr
    | some cm => .deliver cm

/-! ## The ChatRoom session (`src/chat.go` lines 28–103)

The Go struct holds the P2P host, three channels, the lifecycle
context/cancel pair, and the topic and subscription handles.  Handles,
channels and the lifecycle token are opaque resources allocated by the
substrate / runtime; we model each by an identifier.  The topic and
subscription handles additionally carry the topic name they were created
for, which is the observable the spec talks about. -/

/-- An opaque resource handle paired with the topic name it is bound to
(models `*pubsub.Topic` and `*pubsub.Subscription`). -/
structure TopicHandle where
  id        : Nat
  topicName : String
deriving DecidableEq, Repr

/-- The `ChatRoom` struct of `src/chat.go`.  Channels and the lifecycle
context/cancel pair are opaque runtime resources, modelled by `Nat`
identifiers. -/
structure ChatRoom where
  Host         : Nat
  Incomming    : Nat
  Outgoing     : Nat
  Logs         : Nat
  RoomName     : String
  Username     : String
  selfID       : String
  ctx          : Nat
  cancel       : Nat
  topic        : TopicHandle
  subscription : TopicHandle
deriving DecidableEq, Repr

/-- The fixed topic-name template: `fmt.Sprintf("p2p-room-%s", roomName)`
(`src/chat.go` line 58). -/
def topicNameFor (roomName : String) : String :=
  "p2p-room-" ++ roomName

/-- The success path of `JoinChatRoom` (`src/chat.go` lines 56–103).  The substrate
calls `p2p.PubSub.Join` / `topic.Subscribe` and the runtime allocations
(`make(chan …)`, `context.WithCancel`) are modelled by fresh identifiers drawn
from the seed `fresh`; their error paths abort before any of the logic
embedded here and are irrelevant to the claims settled below (the failing
join is passed explicitly to the `/room` handler model instead).

The order of operations is the source's: the topic is joined with the *raw*
`roomName` argument, and only afterwards are the empty `username` /
`roomName` defaulted. -/
def JoinChatRoom (hostID : Nat) (selfID : String) (fresh : Nat)
    (username roomName : String) : ChatRoom :=
  -- create PubSub topic with the room name
  let topic : TopicHandle := ⟨fresh, topicNameFor roomName⟩
  -- subscribe to the PubSub topic
  let sub : TopicHandle := ⟨fresh + 1, topic.topicName⟩
  let username := if username.length == 0 then defaultUsername else username
  let roomName := if roomName.length == 0 then defaultRoomName else roomName
  { Host         := hostID
  , Incomming    := fresh + 2
  , Outgoing     := fresh + 3
  , Logs         := fresh + 4
  , ctx          := fresh + 5
  , cancel       := fresh + 5
  , topic        := topic
  , subscription := sub
  , RoomName     := roomName
  , Username     := username
  , selfID       := selfID }

/-- The `UpdateUser` method (`src/chat.go` lines 203–205): overwrite the `Username`
field in place. -/
def UpdateUser (cr : ChatRoom) (username : String) : ChatRoom :=
  { cr with Username := username }

/-- One iteration of the publisher loop body on an outbound text
(`PubMessages`, `src/chat.go` lines 113–119): the published `chatMessage`
built from the current session state. -/
def pubMessageFor (cr : ChatRoom) (msg : String) : chatMessage :=
  { Message := msg, SenderName := cr.Username, SenderID := cr.selfID }

/-! ## UI input submission (`src/ui.go` lines 108–138)

The `SetDoneFunc` closure of the input field.  Go's `strings.Split(line, " ")`
splits around every single space, keeping empty fields; we model the line as
its character list and define the split recursively with exactly that
semantics. -/

/-- The `uiCommand` struct of `src/ui.go`. -/
structure uiCommand where
  cmdtype : List Char
  cmdarg  : List Char
deriving DecidableEq, Repr

/-- Go `strings.Split(s, " ")` on the character list of `s`: split around every
single space character, keeping empty fields; always returns at least one
field. -/
def splitOnSpace : List Char → List (List Char)
  | [] => [[]]
  | c :: rest =>
    if c = ' ' then
      [] :: splitOnSpace rest
    else
      match splitOnSpace rest with
      | []      => [[c]]
      | f :: fs => (c :: f) :: fs

/-- The key that triggered the input field's done function. -/
inductive Key where
  | enter
  | other
deriving DecidableEq, Repr

/-- What the done-function submits. -/
inductive Submission where
  /-- nothing is sent on either channel. -/
  | nothing
  /-- a `uiCommand` is sent on the `CmdInputs` channel. -/
  | cmd (c : uiCommand)
  /-- the line is sent verbatim on the `MsgInputs` channel. -/
  | msg (text : List Char)
deriving DecidableEq, Repr

/-- The `SetDoneFunc` closure (`src/ui.go` lines 108–138): given the
triggering key and the input field's current text, what is submitted and the
input field's text afterwards.  Non-Enter keys and empty lines return before
reaching the `SetText("")` reset. -/
def inputDone (key : Key) (line : List Char) : Submission × List Char :=
  if key ≠ .enter then
    (.nothing, line)
  else if line.length == 0 then
    -- no point printing empty messages
    (.nothing, line)
  else if line.head? == some '/' then
    let cmdparts := splitOnSpace line
    let cmdparts := if cmdparts.length == 1 then cmdparts ++ [[]] else cmdparts
    ((.cmd ⟨cmdparts.getD 0 [], cmdparts.getD 1 []⟩), [])
  else
    (.msg line, [])

/-! ## The `/room` branch of `handleCommand` (`src/ui.go` lines 235–256)

The handler reads and possibly swaps the UI's embedded active `ChatRoom`,
clears/retitles the message display, and calls `Leave()` on the old session.
The display is modelled by its rendered lines and title; the outcome of the
`JoinChatRoom` call (which depends on the pubsub substrate) is an explicit
`Except` parameter. -/

/-- The part of the `UI` state the `/room` handler can touch. -/
structure UIState where
  ChatRoom         : ChatRoom
  messageListLines : List String
  messageListTitle : String
deriving DecidableEq, Repr

/-- Observable effects of one `/room` handler run. -/
structure RoomCmdEffects where
  /-- The `chatLog` values sent on the `Logs` channel, in order. -/
  logs : List chatLog
  /-- sessions on which `Leave()` was called. -/
  leftSessions : List ChatRoom
deriving DecidableEq, Repr

/-- The `"/room"` case of `handleCommand` (`src/ui.go` lines 235–256).
`joinResult` is the outcome of the `JoinChatRoom(ui.Host, ui.Username,
cmd.cmdarg)` call: `.error e` models a non-nil `err`. -/
def handleRoomCommand (ui : UIState) (cmdarg : String)
    (joinResult : Except String ChatRoom) : UIState × RoomCmdEffects :=
  if cmdarg.length == 0 then
    (ui, ⟨[⟨"badcmd", "missing room name for command"⟩], []⟩)
  else
    let changeLog : chatLog := ⟨"roomchange", "joining new room: " ++ cmdarg⟩
    match joinResult with
    | .error e =>
        (ui, ⟨[changeLog, ⟨"jumperr", "could not change room: " ++ e⟩], []⟩)
    | .ok newChatRoom =>
        let oldChatRoom := ui.ChatRoom
        ({ ChatRoom         := newChatRoom
         , messageListLines := []
         , messageListTitle := "ChatRoom: " ++ newChatRoom.RoomName }
        , ⟨[changeLog], [oldChatRoom]⟩)

/-! ## Bootstrap coordinator (`bootstrapDHT`, `src/p2p.go` lines 310–352)

`bootstrapDHT` launches one `errgroup` goroutine per default bootstrap peer;
each goroutine attempts `nodeHost.Connect` and returns its error.  A run is
summarized by the list of per-peer outcomes (`true` = `Connect` returned
nil).  `errgroup.Group.Wait` blocks until all goroutines finish and returns
the first non-nil error — so it returns nil exactly when every attempt
succeeded.  After the join, the source tests `if err := g.Wait(); err == nil`
and calls `logrus.Fatalln` inside that branch. -/

/-- Whether `errgroup.Group.Wait` returns nil: iff every goroutine returned nil. -/
def errgroupWaitOk (results : List Bool) : Bool :=
  results.all (fun r => r)

/-- Whether `bootstrapDHT` reaches the `Fatalln("Connecting to Bootstrap node
failed")` call: the source guards it with `err == nil` (`src/p2p.go` lines
345–349, discovery source lines 310–314). -/
def bootstrapRaisesFatal (results : List Bool) : Bool :=
  errgroupWaitOk results

/-- The `connectedBootPeers` tally: number of `Connect` attempts that
succeeded. -/
def connectedBootPeers (results : List Bool) : Nat :=
  results.countP (fun r => r)

/-- The `totalBootPeers` tally: every attempt increments it on both
branches. -/
def totalBootPeers (results : List Bool) : Nat :=
  results.length

/-! ## SHA-256 (for `generateCID`)

`crypto/sha256.Sum256` is Go's standard SHA-256.  Implemented here over byte
lists, with 32-bit words as `Nat` wrapped by `% 2 ^ 32`. -/

/-- Wrap to a 32-bit word. -/
def w32 (n : Nat) : Nat := n % 4294967296

/-- The 32-bit rotate right. -/
def rotr32 (n x : Nat) : Nat := w32 ((x >>> n) ||| (x <<< (32 - n)))

/-- The 32-bit bitwise complement (of a value below `2 ^ 32`). -/
def bnot32 (x : Nat) : Nat := x ^^^ 4294967295

/-- SHA-256 Σ₀. -/
def bigSigma0 (x : Nat) : Nat := rotr32 2 x ^^^ rotr32 13 x ^^^ rotr32 22 x

/-- SHA-256 Σ₁. -/
def bigSigma1 (x : Nat) : Nat := rotr32 6 x ^^^ rotr32 11 x ^^^ rotr32 25 x

/-- SHA-256 σ₀. -/
def smallSigma0 (x : Nat) : Nat := rotr32 7 x ^^^ rotr32 18 x ^^^ (x >>> 3)

/-- SHA-256 σ₁. -/
def smallSigma1 (x : Nat) : Nat := rotr32 17 x ^^^ rotr32 19 x ^^^ (x >>> 10)

/-- SHA-256 choice function. -/
def chOp (e f g : Nat) : Nat := (e &&& f) ^^^ (bnot32 e &&& g)

/-- SHA-256 majority function. -/
def majOp (a b c : Nat) : Nat := (a &&& b) ^^^ (a &&& c) ^^^ (b &&& c)

/-- The 64 SHA-256 round constants (decimal). -/
def sha256K : List Nat :=
  [1116352408, 1899447441, 3049323471, 3921009573, 961987163, 1508970993,
   2453635748, 2870763221, 3624381080, 310598401, 607225278, 1426881987,
   1925078388, 2162078206, 2614888103, 3248222580, 3835390401, 4022224774,
   264347078, 604807628, 770255983, 1249150122, 1555081692, 1996064986,
   2554220882, 2821834349, 2952996808, 3210313671, 3336571891, 3584528711,
   113926993, 338241895, 666307205, 773529912, 1294757372, 1396182291,
   1695183700, 1986661051, 2177026350, 2456956037, 2730485921, 2820302411,
   3259730800, 3345764771, 3516065817, 3600352804, 4094571909, 275423344,
   430227734, 506948616, 659060556, 883997877, 958139571, 1322822218,
   1537002063, 1747873779, 1955562222, 2024104815, 2227730452, 2361852424,
   2428436474, 2756734187, 3204031479, 3329325298]

/-- The SHA-256 initial hash state (decimal). -/
def sha256H0 : List Nat :=
  [1779033703, 3144134277, 1013904242, 2773480762, 1359893119, 2600822924,
   528734635, 1541459225]

/-- Big-endian byte expansion of `n` into `k` bytes. -/
def beBytes (k n : Nat) : List Nat :=
  (List.range k).map (fun i => (n >>> (8 * (k - 1 - i))) % 256)

/-- SHA-256 padding: append `0x80`, zero bytes to 56 mod 64, and the bit
length as a big-endian 64-bit value. -/
def sha256Pad (msg : List Nat) : List Nat :=
  msg ++ 0x80 :: List.replicate ((119 - msg.length % 64) % 64) 0 ++ beBytes 8 (8 * msg.length)

/-- Split a byte list into 64-byte blocks (structural recursion on a fuel
bound by the list length, so that the definition reduces inside the
kernel). -/
def chunks64Fuel : Nat → List Nat → List (List Nat)
  | 0, _ => []
  | _ + 1, [] => []
  | fuel + 1, l => l.take 64 :: chunks64Fuel fuel (l.drop 64)

/-- Split a byte list into 64-byte blocks. -/
def chunks64 (l : List Nat) : List (List Nat) :=
  chunks64Fuel l.length l

/-- The `i`-th big-endian 32-bit word of a 64-byte block. -/
def beWordAt (block : List Nat) (i : Nat) : Nat :=
  block.getD (4 * i) 0 * 16777216 + block.getD (4 * i + 1) 0 * 65536 +
    block.getD (4 * i + 2) 0 * 256 + block.getD (4 * i + 3) 0

/-- The next message-schedule word from the current schedule. -/
def nextScheduleWord (w : List Nat) : Nat :=
  let n := w.length
  w32 (smallSigma1 (w.getD (n - 2) 0) + w.getD (n - 7) 0 +
       smallSigma0 (w.getD (n - 15) 0) + w.getD (n - 16) 0)

/-- The 64-word message schedule of a block. -/
def messageSchedule (block : List Nat) : List Nat :=
  (List.range 48).foldl (fun w _ => w ++ [nextScheduleWord w])
    ((List.range 16).map (beWordAt block))

/-- One SHA-256 compression round on the working variables `[a,…,h]`,
given the round constant and schedule word. -/
def sha256Round (s : List Nat) (kw : Nat × Nat) : List Nat :=
  let a := s.getD 0 0
  let b := s.getD 1 0
  let c := s.getD 2 0
  let d := s.getD 3 0
  let e := s.getD 4 0
  let f := s.getD 5 0
  let g := s.getD 6 0
  let h := s.getD 7 0
  let t1 := w32 (h + bigSigma1 e + chOp e f g + kw.1 + kw.2)
  let t2 := w32 (bigSigma0 a + majOp a b c)
  [w32 (t1 + t2), a, b, c, w32 (d + t1), e, f, g]

/-- SHA-256 compression of one 64-byte block into the hash state. -/
def sha256Compress (state block : List Nat) : List Nat :=
  let s := (sha256K.zip (messageSchedule block)).foldl sha256Round state
  (state.zip s).map (fun p => w32 (p.1 + p.2))

/-- SHA-256 digest (32 bytes) of a byte list (`crypto/sha256.Sum256`). -/
def sha256 (msg : List Nat) : List Nat :=
  ((chunks64 (sha256Pad msg)).foldl sha256Compress sha256H0).foldr
    (fun wd acc => beBytes 4 wd ++ acc) []

/-- The UTF-8 encoding of one character. -/
def utf8Bytes (c : Char) : List Nat :=
  let n := c.toNat
  if n < 0x80 then [n]
  else if n < 0x800 then
    [0xC0 ||| (n >>> 6), 0x80 ||| (n &&& 0x3F)]
  else if n < 0x10000 then
    [0xE0 ||| (n >>> 12), 0x80 ||| ((n >>> 6) &&& 0x3F), 0x80 ||| (n &&& 0x3F)]
  else
    [0xF0 ||| (n >>> 18), 0x80 ||| ((n >>> 12) &&& 0x3F),
     0x80 ||| ((n >>> 6) &&& 0x3F), 0x80 ||| (n &&& 0x3F)]

/-- The UTF-8 bytes of a Go string (`[]byte(name)`). -/
def strBytes (s : String) : List Nat :=
  s.data.foldr (fun c acc => utf8Bytes c ++ acc) []

/-! ## Base58, multihash parsing, and `generateCID`
(discovery source, `generateCID`, lines 160–180)

`base58.Encode` / `multihash.FromB58String` use the Bitcoin Base58
alphabet.  `multihash.FromB58String` Base58-decodes the string (failing on a
character outside the alphabet) and casts the bytes to a multihash, reading
a uvarint hash-function code and a uvarint digest length and checking the
remaining digest has exactly that length; the multihash value is the full
byte buffer. -/

/-- The Bitcoin Base58 alphabet. -/
def base58Alphabet : List Char :=
  "123456789ABCDEFGHJKLMNPQRSTUVWXYZabcdefghijkmnopqrstuvwxyz".data

/-- Digits of `n` in base `base`, least significant first, on a fuel bound
(any fuel at least the digit count; `n` itself always suffices for
`base ≥ 2`).  Structural recursion on the fuel keeps the definition
kernel-reducible. -/
def natDigitsRevFuel (base : Nat) : Nat → Nat → List Nat
  | 0, _ => []
  | _ + 1, 0 => []
  | fuel + 1, n => (n % base) :: natDigitsRevFuel base fuel (n / base)

/-- Base-58 digits of `n`, least significant first. -/
def natToBase58Rev (n : Nat) : List Nat :=
  natDigitsRevFuel 58 n n

/-- A byte list read as a big-endian natural number. -/
def beNat (bytes : List Nat) : Nat :=
  bytes.foldl (fun acc b => acc * 256 + b) 0

/-- Base58 encoding (`base58.Encode`): one `'1'` per leading zero byte, then the big-endian
value in Base58 digits. -/
def base58Encode (bytes : List Nat) : String :=
  let zeros := (bytes.takeWhile (fun b => b == 0)).length
  let digits := (natToBase58Rev (beNat bytes)).reverse
  String.mk (List.replicate zeros '1' ++ digits.map (fun d => base58Alphabet.getD d '1'))

/-- The Base58 digit value of a character, if it is in the alphabet. -/
def base58DigitOf (c : Char) : Option Nat :=
  base58Alphabet.findIdx? (fun a => a = c)

/-- Base-256 digits of `n`, least significant first. -/
def natToBeBytesRev (n : Nat) : List Nat :=
  natDigitsRevFuel 256 n n

/-- Base58 decoding (`base58.Decode`): fails on a character outside the alphabet; leading `'1'`
characters become leading zero bytes. -/
def base58Decode (s : String) : Option (List Nat) :=
  (s.data.mapM base58DigitOf).map (fun ds =>
    let n := ds.foldl (fun acc d => acc * 58 + d) 0
    let zeros := (s.data.takeWhile (fun c => c == '1')).length
    List.replicate zeros 0 ++ (natToBeBytesRev n).reverse)

/-- Unsigned varint decoding (`binary.Uvarint`): little-endian 7-bit groups with a continuation bit;
returns the value and the unread remainder, or `none` on truncated input. -/
def uvarint : List Nat → Nat → Nat → Option (Nat × List Nat)
  | [], _, _ => none
  | b :: rest, shift, acc =>
    if b < 128 then some (acc + (b <<< shift), rest)
    else uvarint rest (shift + 7) (acc + ((b % 128) <<< shift))

/-- Multihash validation (`multihash.Cast`): parse the hash-function code and digest length
uvarints and require the digest to have exactly the stated length; the
multihash is the whole buffer. -/
def castMultihash (buf : List Nat) : Option (List Nat) :=
  match uvarint buf 0 0 with
  | none => none
  | some (_code, rest) =>
    match uvarint rest 0 0 with
    | none => none
    | some (length, digest) =>
        if digest.length = length then some buf else none

/-- Multihash parsing (`multihash.FromB58String`): Base58-decode, then cast to a multihash. -/
def multihashFromB58String (s : String) : Option (List Nat) :=
  (base58Decode s).bind castMultihash

/-- A content identifier (`cid.Cid`), by its version, codec, and multihash
bytes. -/
structure Cid where
  version : Nat
  codec   : Nat
  hash    : List Nat
deriving DecidableEq, Repr

/-- The fixed discovery service key (`serviceName`, discovery source
line 29). -/
def serviceName : String := "awesome/p2pchat"

/-- The `generateCID` function (discovery source lines 160–180): SHA-256 the name, put
the fixed 2-byte (hash-function-id `0x12`, digest-length `0x20`) header in
front, Base58-encode, re-parse as a multihash, wrap as a version-1 CID with
codec `12`.  The `Fatalln` taken when the multihash re-parse errors is
modelled by `none`. -/
def generateCID (name : String) : Option Cid :=
  let hash := sha256 (strBytes name)
  let finalHash := 0x12 :: 0x20 :: hash
  let b58 := base58Encode finalHash
  (multihashFromB58String b58).map (fun multiHash => ⟨1, 12, multiHash⟩)

/-! ## Spec-side tokenization (for the command-syntax claim)

The spec describes command parsing by tokens: the command type is the first
token of the line and the argument is the remainder after that token.  These
definitions follow the spec's words, independently of `splitOnSpace`, so
that the parsing theorems compare the code against them. -/

/-- Not the space character (the token delimiter). -/
def notSpace (c : Char) : Bool := c ≠ ' '

/-- The character `'/'` is not the delimiter. -/
theorem notSpace_slash : notSpace '/' = true := rfl

/-- Spec-side: the first space-delimited token of a line. -/
def specFirstToken (l : List Char) : List Char :=
  l.takeWhile notSpace

/-- Spec-side: the remainder of the line after the first token and its
delimiter (empty when the line has no space). -/
def specRemainder (l : List Char) : List Char :=
  (l.dropWhile notSpace).drop 1

/-- The tail of `splitOnSpace` past the first field: nothing if the line has
no space, otherwise the split of what follows the first space. -/
def splitTail (l : List Char) : List (List Char) :=
  match l.dropWhile notSpace with
  | [] => []
  | _ :: rest => splitOnSpace rest

/-- Splitting yields the first space-delimited field followed by the
split of the rest. -/
theorem splitOnSpace_eq (l : List Char) :
    splitOnSpace l = specFirstToken l :: splitTail l := by
  induction l with
  | nil => rfl
  | cons c rest ih =>
      by_cases hc : c = ' '
      · subst hc
        simp [splitOnSpace, specFirstToken, splitTail, notSpace,
          List.takeWhile, List.dropWhile]
      · have hnc : notSpace c = true := by simp [notSpace, hc]
        simp only [splitOnSpace, if_neg hc, ih, specFirstToken, splitTail,
          List.takeWhile, List.dropWhile, hnc]

/-! ## Supporting lemmas -/

/-- The `bootstrapDHT` fatal branch fires exactly when every `Connect`
attempt succeeded: the source inverted the `err == nil` test. -/
theorem bootstrapRaisesFatal_iff_all_connected (results : List Bool) :
    bootstrapRaisesFatal results = true ↔
      connectedBootPeers results = totalBootPeers results := by
  simp [bootstrapRaisesFatal, errgroupWaitOk, connectedBootPeers, totalBootPeers,
    List.all_eq_true, List.countP_eq_length]

/-! ## Claim theorems -/

/-- Claim C1 (code bug, evaluation at the failing inputs).  The claim says the
bootstrap coordinator raises a fatal error iff `connected == 0` after all
attempts.  The code guards `Fatalln` with `err == nil` after
`errgroup.Wait`, so it raises the fatal error exactly when *every* attempt
succeeded: with 4 seed peers and 4 successes (`k = 4 ≥ 1`) it is fatal, and
with 4 seed peers and 0 successes (`k = 0`) it returns without the fatal
error — both directions of the claimed equivalence fail. -/
theorem bootstrapDHT_fatal_inverted :
    (bootstrapRaisesFatal [true, true, true, true] = true ∧
      connectedBootPeers [true, true, true, true] = 4) ∧
    (bootstrapRaisesFatal [false, false, false, false] = false ∧
      connectedBootPeers [false, false, false, false] = 0) := by
  decide

/-- Claim C2 (counterexample).  A pubsub message whose decoded payload
`senderId` equals the local peer ID, but whose envelope `ReceivedFrom` is a
different peer, *is* pushed onto the `Incomming` channel: `ReadSub` keys its
self-check on `msg.ReceivedFrom`, never on the payload `senderId`. -/
theorem readSub_senderId_not_suppressed :
    (chatMessage.mk "hi" "QmSelf" "bob").SenderID = "QmSelf" ∧
    readSubStep "QmSelf"
        ⟨"QmOther", marshalChatMessage ⟨"hi", "QmSelf", "bob"⟩⟩ =
      .deliver ⟨"hi", "QmSelf", "bob"⟩ := by
  decide

/-- Claim C2 (amended).  Self-echo suppression as the code implements it: for
every received message and every local peer ID, if the message's envelope
`ReceivedFrom` peer ID equals the local peer ID, the subscriber-reader never
pushes the message onto the `Incomming` channel. -/
theorem readSub_receivedFrom_suppression (selfID : String) (msg : PubSubMsg)
    (h : msg.ReceivedFrom = selfID) (cm : chatMessage) :
    readSubStep selfID msg ≠ .deliver cm := by
  simp [readSubStep, h]

/-- Claim C2 (witness for the amended theorem), at a concrete self-received
message. -/
theorem readSub_receivedFrom_suppression_witness :
    readSubStep "QmSelf" ⟨"QmSelf", marshalChatMessage ⟨"hi", "QmPeer", "bob"⟩⟩ ≠
      .deliver ⟨"hi", "QmPeer", "bob"⟩ :=
  readSub_receivedFrom_suppression "QmSelf"
    ⟨"QmSelf", marshalChatMessage ⟨"hi", "QmPeer", "bob"⟩⟩ rfl ⟨"hi", "QmPeer", "bob"⟩

/-- Claim C3 (confirmed).  Wire round-trip: decoding the publisher's JSON
serialization of any `chatMessage` returns exactly that message. -/
theorem wire_roundtrip (m : chatMessage) :
    unmarshalChatMessage (marshalChatMessage m) = some m := by
  cases m
  rfl

/-- Claim C4 (confirmed).  `generateCID` is a pure deterministic function of
its input: any two invocations — in the same or in independent processes —
on equal service-key strings produce byte-identical content identifiers. -/
theorem generateCID_deterministic (s t : String) (h : s = t) :
    generateCID s = generateCID t := by
  rw [h]

/-- Claim C4 (witness): two invocations on the deployed service key agree, and
the pipeline's multihash re-parse succeeds there (the fatal branch of
`generateCID` is not taken). -/
theorem generateCID_deterministic_witness :
    generateCID serviceName = generateCID serviceName ∧
      (generateCID serviceName).isSome = true :=
  ⟨generateCID_deterministic serviceName serviceName rfl, by decide⟩

/-- Claim C5 (code bug, evaluation at the failing input).  The claim says the
joined topic name equals the fixed template applied to the session's room
name, so that sessions with equal resulting room names — including a name
produced by empty-string normalization — share a topic.  The code joins the
topic *before* normalizing the empty room name: `Join` with room name `""`
yields a session whose `RoomName` is `"lobby"` but whose topic is
`"p2p-room-"`, while a session joined as `"lobby"` has topic
`"p2p-room-lobby"` — equal resulting room names, different topics. -/
theorem joinChatRoom_empty_room_topic_mismatch :
    (JoinChatRoom 0 "QmSelf" 0 "alice" "").RoomName = "lobby" ∧
    (JoinChatRoom 0 "QmSelf" 0 "alice" "").topic.topicName = "p2p-room-" ∧
    (JoinChatRoom 0 "QmSelf" 6 "bob" "lobby").RoomName = "lobby" ∧
    (JoinChatRoom 0 "QmSelf" 6 "bob" "lobby").topic.topicName = "p2p-room-lobby" ∧
    (JoinChatRoom 0 "QmSelf" 0 "alice" "").topic.topicName ≠
      topicNameFor (JoinChatRoom 0 "QmSelf" 0 "alice" "").RoomName ∧
    (JoinChatRoom 0 "QmSelf" 0 "alice" "").topic.topicName ≠
      (JoinChatRoom 0 "QmSelf" 6 "bob" "lobby").topic.topicName := by
  decide

/-- The first element left by `dropWhile` fails the predicate. -/
theorem dropWhile_head_false (p : Char → Bool) :
    ∀ (l : List Char) (d : Char) (r : List Char),
      l.dropWhile p = d :: r → p d = false := by
  intro l
  induction l with
  | nil =>
      intro d r h
      simp [List.dropWhile] at h
  | cons c rest ih =>
      intro d r h
      simp only [List.dropWhile] at h
      cases hpc : p c with
      | true => rw [hpc] at h; exact ih d r h
      | false =>
          rw [hpc] at h
          cases h
          exact hpc

/-- A nonempty string has `(length == 0) = false`. -/
theorem String.length_beq_zero_eq_false (s : String) (h : s ≠ "") :
    (s.length == 0) = false := by
  have hlen : s.length ≠ 0 := by
    intro h0
    apply h
    cases s with
    | mk data =>
        cases data with
        | nil => rfl
        | cons c cs => simp [String.length] at h0
  simp [hlen]

/-- Claim C6 (counterexample).  The claim says the parsed argument of a
slash-command line is the entire remainder after the first token.  On the
line `"/room my lobby"` the remainder after the first token is
`"my lobby"`, but the code (`strings.Split(line, " ")` and `cmdparts[1]`)
parses the argument `"my"`. -/
theorem inputDone_arg_not_remainder :
    specRemainder "/room my lobby".data = "my lobby".data ∧
    (inputDone .enter "/room my lobby".data).1 =
      .cmd ⟨"/room".data, "my".data⟩ ∧
    "my".data ≠ "my lobby".data := by
  decide

/-- Claim C6 (amended).  For every submitted line beginning with `'/'`, the
parsed command type is the first space-delimited token and the parsed
argument is the *first space-delimited token of the remainder* (empty when
there is no remainder) — text after a second space is discarded, not kept in
the argument.  A nonempty line not beginning with `'/'` is submitted as
plain chat text, never as a command. -/
theorem inputDone_command_parsing :
    (∀ l : List Char, l.head? = some '/' →
      (inputDone .enter l).1 =
        .cmd ⟨specFirstToken l, specFirstToken (specRemainder l)⟩) ∧
    (∀ l : List Char, l ≠ [] → l.head? ≠ some '/' →
      (inputDone .enter l).1 = .msg l) := by
  constructor
  · intro l hl
    obtain ⟨rest, rfl⟩ : ∃ rest, l = '/' :: rest := by
      cases l with
      | nil => simp at hl
      | cons c rest =>
          refine ⟨rest, ?_⟩
          simp only [List.head?] at hl
          cases hl
          rfl
    have hsplit := splitOnSpace_eq ('/' :: rest)
    cases hd : rest.dropWhile notSpace with
    | nil =>
        have htail : splitTail ('/' :: rest) = [] := by
          simp [splitTail, List.dropWhile, notSpace_slash, hd]
        rw [htail] at hsplit
        have hrem : specRemainder ('/' :: rest) = [] := by
          simp [specRemainder, List.dropWhile, notSpace_slash, hd]
        simp [inputDone, hsplit, hrem, specFirstToken, List.takeWhile]
    | cons d r =>
        have hdv : d = ' ' := by
          have := dropWhile_head_false notSpace rest d r hd
          simpa [notSpace] using this
        subst hdv
        have htail : splitTail ('/' :: rest) = splitOnSpace r := by
          simp [splitTail, List.dropWhile, notSpace_slash, hd]
        rw [htail, splitOnSpace_eq r] at hsplit
        have hrem : specRemainder ('/' :: rest) = r := by
          simp [specRemainder, List.dropWhile, notSpace_slash, hd]
        simp [inputDone, hsplit, hrem, specFirstToken, List.takeWhile]
  · intro l hne hl
    have h0 : (l.length == 0) = false := by
      cases l with
      | nil => exact absurd rfl hne
      | cons c rest => rfl
    have hh : (l.head? == some '/') = false := by
      simp [hl]
    simp [inputDone, h0, hh]

/-- Claim C6 (witness for the amended theorem): `"/room lobby2"` parses to the
command `/room` with argument `lobby2`, and `"hello"` is submitted as plain
text. -/
theorem inputDone_command_parsing_witness :
    (inputDone .enter "/room lobby2".data).1 =
      .cmd ⟨specFirstToken "/room lobby2".data,
            specFirstToken (specRemainder "/room lobby2".data)⟩ ∧
    (inputDone .enter "hello".data).1 = .msg "hello".data :=
  ⟨inputDone_command_parsing.1 "/room lobby2".data rfl,
   inputDone_command_parsing.2 "hello".data (by decide) (by decide)⟩

/-- Claim C7 (confirmed).  Room-switch failure atomicity: whenever the `/room`
handler's `JoinChatRoom` call returns an error, the whole UI state is
unchanged (active session kept, message display neither cleared nor
retitled), `Leave()` is called on no session, and the failure is reported as
a `jumperr` log event. -/
theorem handleRoomCommand_join_failure (ui : UIState) (arg : String) (e : String)
    (harg : arg ≠ "") :
    (handleRoomCommand ui arg (.error e)).1 = ui ∧
    (handleRoomCommand ui arg (.error e)).2.leftSessions = [] ∧
    chatLog.mk "jumperr" ("could not change room: " ++ e) ∈
      (handleRoomCommand ui arg (.error e)).2.logs := by
  simp [handleRoomCommand, String.length_beq_zero_eq_false arg harg]

/-- Claim C7 (witness), at a concrete UI state and a concrete failing join. -/
theorem handleRoomCommand_join_failure_witness :
    (handleRoomCommand ⟨JoinChatRoom 0 "QmSelf" 0 "anon" "lobby", ["hi"], "ChatRoom: lobby"⟩
        "lobby2" (.error "dial failed")).1 =
      ⟨JoinChatRoom 0 "QmSelf" 0 "anon" "lobby", ["hi"], "ChatRoom: lobby"⟩ ∧
    (handleRoomCommand ⟨JoinChatRoom 0 "QmSelf" 0 "anon" "lobby", ["hi"], "ChatRoom: lobby"⟩
        "lobby2" (.error "dial failed")).2.leftSessions = [] ∧
    chatLog.mk "jumperr" ("could not change room: " ++ "dial failed") ∈
      (handleRoomCommand ⟨JoinChatRoom 0 "QmSelf" 0 "anon" "lobby", ["hi"], "ChatRoom: lobby"⟩
        "lobby2" (.error "dial failed")).2.logs :=
  handleRoomCommand_join_failure
    ⟨JoinChatRoom 0 "QmSelf" 0 "anon" "lobby", ["hi"], "ChatRoom: lobby"⟩
    "lobby2" "dial failed" (by decide)

/-- Claim C8 (confirmed).  Default fallbacks: joining with empty username and
room name yields the fixed defaults (`"anon"`, `"lobby"`), never empty
strings; nonempty arguments are kept unchanged. -/
theorem joinChatRoom_default_fallbacks (hostID : Nat) (selfID : String) (fresh : Nat)
    (username roomName : String) :
    ((JoinChatRoom hostID selfID fresh "" "").Username = defaultUsername ∧
     (JoinChatRoom hostID selfID fresh "" "").RoomName = defaultRoomName) ∧
    (username ≠ "" →
      (JoinChatRoom hostID selfID fresh username roomName).Username = username) ∧
    (roomName ≠ "" →
      (JoinChatRoom hostID selfID fresh username roomName).RoomName = roomName) := by
  refine ⟨⟨rfl, rfl⟩, fun hu => ?_, fun hr => ?_⟩
  · simp [JoinChatRoom, String.length_beq_zero_eq_false username hu]
  · simp [JoinChatRoom, String.length_beq_zero_eq_false roomName hr]

/-- Claim C8 (witness): the defaults at `("", "")` and preservation at
`("alice", "den")`. -/
theorem joinChatRoom_default_fallbacks_witness :
    ((JoinChatRoom 0 "QmSelf" 0 "" "").Username = defaultUsername ∧
     (JoinChatRoom 0 "QmSelf" 0 "" "").RoomName = defaultRoomName) ∧
    ((JoinChatRoom 0 "QmSelf" 0 "alice" "den").Username = "alice" ∧
     (JoinChatRoom 0 "QmSelf" 0 "alice" "den").RoomName = "den") :=
  ⟨(joinChatRoom_default_fallbacks 0 "QmSelf" 0 "alice" "den").1,
   ⟨(joinChatRoom_default_fallbacks 0 "QmSelf" 0 "alice" "den").2.1 (by decide),
    (joinChatRoom_default_fallbacks 0 "QmSelf" 0 "alice" "den").2.2 (by decide)⟩⟩

/-- Claim C9 (confirmed).  Empty-input suppression: an Enter keypress on an
input field whose text is empty submits nothing — no message, no command —
and leaves the input field as it is. -/
theorem inputDone_empty_line_nothing :
    inputDone .enter [] = (.nothing, []) := by
  decide

/-- Claim C10 (confirmed).  `UpdateUser` frame property: it sets the
`Username` field to the given name and leaves every other `ChatRoom` field —
host, the three channels, room name, self peer ID, lifecycle context/cancel,
topic and subscription handles — unchanged. -/
theorem UpdateUser_frame (cr : ChatRoom) (name : String) :
    (UpdateUser cr name).Username = name ∧
    (UpdateUser cr name).RoomName = cr.RoomName ∧
    (UpdateUser cr name).selfID = cr.selfID ∧
    (UpdateUser cr name).Host = cr.Host ∧
    (UpdateUser cr name).Incomming = cr.Incomming ∧
    (UpdateUser cr name).Outgoing = cr.Outgoing ∧
    (UpdateUser cr name).Logs = cr.Logs ∧
    (UpdateUser cr name).ctx = cr.ctx ∧
    (UpdateUser cr name).cancel = cr.cancel ∧
    (UpdateUser cr name).topic = cr.topic ∧
    (UpdateUser cr name).subscription = cr.subscription :=
  ⟨rfl, rfl, rfl, rfl, rfl, rfl, rfl, rfl, rfl, rfl, rfl⟩

end P2PChat
